import Mathlib

/-!
Shallow embedding of the `almagest` orbital-geometry crate
(`src/almagest/src/utils.rs` and `src/almagest/src/kepler.rs`).

The crate computes the static geometry of Keplerian conic sections over
`f64` scalars.  Two embeddings are used:

* `Almagest` — the idealized-real embedding: the scalar type `Real = f64`
  is modelled by `ℝ` (exact arithmetic, no rounding, no NaN/infinity).
  All functions of `kepler.rs` and the `Eccentricity` constructor of
  `utils.rs` are translated here.  Rust's `Result<T, &'static str>` is
  `Except String T`; a call of `.unwrap()` on a `Result` (which aborts
  the program on `Err`) is modelled by mapping into `Option`, with
  `none` standing for the abort.

* `AlmagestFP` — an IEEE-style model over `ℚ` extended with `+∞`, `-∞`
  and NaN, used for the claims that are specifically about IEEE special
  values (division by zero producing infinity, NaN escaping the `< 0`
  guard).  Finite arithmetic is exact rational arithmetic (rounding of
  the `f64` significand is not modelled; the claims evaluated here only
  use values where `f64` arithmetic is exact).
-/

namespace Almagest

/-- `pub type Real = f64;` — modelled as `ℝ`. -/
abbrev Real := ℝ

/-- `pub struct Meters(pub Real);` from `utils.rs`. -/
structure Meters where
  val : Real
deriving Inhabited

/-- `Meters::value(&self) -> Real { self.0 }`. -/
def Meters.value (m : Meters) : Real := m.val

/-- `Meters::ZERO`. -/
def Meters.ZERO : Meters := ⟨0⟩

/-- `impl Add for Meters`. -/
noncomputable instance : Add Meters := ⟨fun a b => ⟨a.val + b.val⟩⟩

/-- `impl Sub for Meters`. -/
noncomputable instance : Sub Meters := ⟨fun a b => ⟨a.val - b.val⟩⟩

/-- `impl Div for Meters` — `Meters / Meters = Real`, a dimensionless ratio. -/
noncomputable instance : HDiv Meters Meters Real := ⟨fun a b => a.val / b.val⟩

/-- `impl Div<Real> for Meters` — scalar division. -/
noncomputable instance : HDiv Meters Real Meters := ⟨fun a r => ⟨a.val / r⟩⟩

/-- `impl Mul<Real> for Meters` — scalar multiplication. -/
noncomputable instance : HMul Meters Real Meters := ⟨fun a r => ⟨a.val * r⟩⟩

/-- `impl Mul<Meters> for Real` — commuted scalar multiplication. -/
noncomputable instance : HMul Real Meters Meters := ⟨fun r a => ⟨r * a.val⟩⟩

/-- `pub struct Eccentricity(Real);` from `utils.rs`. -/
structure Eccentricity where
  val : Real

/-- `Eccentricity::new(value: Real) -> Result<Self, &'static str>`:
`if value < 0.0 { Err("Eccentricity cannot be negative") } else { Ok(Eccentricity(value)) }`. -/
noncomputable def Eccentricity.new (value : Real) : Except String Eccentricity :=
  if value < 0 then .error "Eccentricity cannot be negative"
  else .ok ⟨value⟩

/-- `Eccentricity::value(&self) -> Real { self.0 }`. -/
def Eccentricity.value (e : Eccentricity) : Real := e.val

/-- Rust `.unwrap()` on a `Result`: returns the `Ok` payload, aborts the
program (panics) on `Err`.  The abort is modelled by `Option.none`. -/
def unwrapOrAbort {α : Type} : Except String α → Option α
  | .ok a => some a
  | .error _ => none

/-- `pub struct Point { x: Meters, y: Meters }` from `kepler.rs`. -/
structure Point where
  x : Meters
  y : Meters

/-- `pub struct Ellipse { e: Eccentricity, f: Point, r_p: Meters }` from `kepler.rs`. -/
structure Ellipse where
  e : Eccentricity
  f : Point
  r_p : Meters

/-- `Ellipse::new(e, f, r_p)`. -/
def Ellipse.new (e : Eccentricity) (f : Point) (r_p : Meters) : Ellipse :=
  ⟨e, f, r_p⟩

/-- `Ellipse::from_periapsis_apoapsis(r_p, r_a, f)`:
computes `e = (r_a - r_p) / (r_a + r_p)` and stores
`Eccentricity::new(e).unwrap()`; the `.unwrap()` aborts on a negative
computed eccentricity, modelled by `none`. -/
noncomputable def Ellipse.from_periapsis_apoapsis (r_p r_a : Meters) (f : Point) :
    Option Ellipse :=
  let e := (r_a.value - r_p.value) / (r_a.value + r_p.value)
  (unwrapOrAbort (Eccentricity.new e)).map fun ec => { e := ec, f := f, r_p := r_p }

/-- `Ellipse::eccentricity`. -/
def Ellipse.eccentricity (el : Ellipse) : Eccentricity := el.e

/-- `Ellipse::primary_focus`. -/
def Ellipse.primary_focus (el : Ellipse) : Point := el.f

/-- `Ellipse::periapsis`. -/
def Ellipse.periapsis (el : Ellipse) : Meters := el.r_p

/-- `Ellipse::semi_major_axis`: `self.periapsis() / (1.0 - self.eccentricity().value())`. -/
noncomputable def Ellipse.semi_major_axis (el : Ellipse) : Meters :=
  el.periapsis / (1 - el.eccentricity.value)

/-- `Ellipse::semi_minor_axis`:
`Meters(self.semi_major_axis().value() * sqrt(1.0 - ecc * ecc))`. -/
noncomputable def Ellipse.semi_minor_axis (el : Ellipse) : Meters :=
  ⟨el.semi_major_axis.value *
    Real.sqrt (1 - el.eccentricity.value * el.eccentricity.value)⟩

/-- `Ellipse::flattening`:
`let a = self.semi_major_axis() - self.semi_minor_axis(); a / self.semi_major_axis()`. -/
noncomputable def Ellipse.flattening (el : Ellipse) : Real :=
  let a := el.semi_major_axis - el.semi_minor_axis
  a / el.semi_major_axis

/-- `Ellipse::apoapsis`:
`Meters(self.semi_major_axis().value() * (1.0 + self.eccentricity().value()))`. -/
noncomputable def Ellipse.apoapsis (el : Ellipse) : Meters :=
  ⟨el.semi_major_axis.value * (1 + el.eccentricity.value)⟩

/-- `Ellipse::focal_distance`:
`Meters(self.eccentricity().value() * self.semi_major_axis().value())`. -/
noncomputable def Ellipse.focal_distance (el : Ellipse) : Meters :=
  ⟨el.eccentricity.value * el.semi_major_axis.value⟩

/-- `pub fn calc_2a(r_f, r_f_p) -> Meters { r_f + r_f_p }`. -/
noncomputable def calc_2a (r_f r_f_p : Meters) : Meters := r_f + r_f_p

/-- `pub fn calc_2c(r_f, r_f_p) -> Meters`: an explicit magnitude-comparison
branch, `if r_f.value() > r_f_p.value() { r_f - r_f_p } else { r_f_p - r_f }`. -/
noncomputable def calc_2c (r_f r_f_p : Meters) : Meters :=
  if r_f.value > r_f_p.value then r_f - r_f_p else r_f_p - r_f

/-- `pub fn calc_ecc(r_f, r_f_p) -> Eccentricity`: builds
`Eccentricity::new(c / a).unwrap()` from `a = calc_2a(..)/2` and
`c = calc_2c(..)/2`; the `.unwrap()` abort is modelled by `none`. -/
noncomputable def calc_ecc (r_f r_f_p : Meters) : Option Eccentricity :=
  let two_a := calc_2a r_f r_f_p
  let two_c := calc_2c r_f r_f_p
  let a := two_a.value / 2
  let c := two_c.value / 2
  unwrapOrAbort (Eccentricity.new (c / a))

end Almagest

namespace AlmagestFP

/-- IEEE-style model of `f64` for the claims about special values: a NaN,
two infinities, and exact finite values (a rational stands for the finite
double; rounding is not modelled and the claims using this model only
exercise values where `f64` arithmetic is exact). -/
inductive FP where
  | nan : FP
  | pinf : FP
  | ninf : FP
  | fin : ℚ → FP
deriving DecidableEq

/-- IEEE `<` on doubles: any comparison with NaN is false; `-∞ < x` for
every non-NaN `x ≠ -∞`; `x < +∞` for every non-NaN `x ≠ +∞`. -/
def FP.lt : FP → FP → Bool
  | .nan, _ => false
  | _, .nan => false
  | .pinf, _ => false
  | .ninf, .ninf => false
  | .ninf, _ => true
  | .fin _, .pinf => true
  | .fin _, .ninf => false
  | .fin a, .fin b => decide (a < b)

/-- IEEE `<=` on doubles: any comparison with NaN is false. -/
def FP.le : FP → FP → Bool
  | .nan, _ => false
  | _, .nan => false
  | .ninf, _ => true
  | _, .pinf => true
  | .pinf, _ => false
  | .fin _, .ninf => false
  | .fin a, .fin b => decide (a ≤ b)

/-- IEEE negation. -/
def FP.neg : FP → FP
  | .nan => .nan
  | .pinf => .ninf
  | .ninf => .pinf
  | .fin a => .fin (-a)

/-- IEEE addition: NaN propagates; `+∞ + -∞ = NaN`; infinities absorb
finite values; finite addition is exact. -/
def FP.add : FP → FP → FP
  | .nan, _ => .nan
  | _, .nan => .nan
  | .pinf, .ninf => .nan
  | .ninf, .pinf => .nan
  | .pinf, _ => .pinf
  | _, .pinf => .pinf
  | .ninf, _ => .ninf
  | _, .ninf => .ninf
  | .fin a, .fin b => .fin (a + b)

/-- IEEE subtraction: `x - y = x + (-y)`. -/
def FP.sub (a b : FP) : FP := a.add b.neg

/-- IEEE multiplication: NaN propagates; `±∞ × 0 = NaN`; otherwise an
infinity times a nonzero value is an infinity with the product sign;
finite multiplication is exact. -/
def FP.mul : FP → FP → FP
  | .nan, _ => .nan
  | _, .nan => .nan
  | .pinf, .pinf => .pinf
  | .pinf, .ninf => .ninf
  | .ninf, .pinf => .ninf
  | .ninf, .ninf => .pinf
  | .pinf, .fin b => if b = 0 then .nan else if 0 < b then .pinf else .ninf
  | .fin a, .pinf => if a = 0 then .nan else if 0 < a then .pinf else .ninf
  | .ninf, .fin b => if b = 0 then .nan else if 0 < b then .ninf else .pinf
  | .fin a, .ninf => if a = 0 then .nan else if 0 < a then .ninf else .pinf
  | .fin a, .fin b => .fin (a * b)

/-- IEEE division: NaN propagates; `∞ / ∞ = NaN`; finite over infinite is
zero; a nonzero finite value over (positive) zero is a signed infinity and
`0 / 0` is NaN; finite division is exact.  (ℚ has no negative zero; the
zero produced by `1.0 - 1.0` in the code is IEEE `+0.0`, which this
models.) -/
def FP.div : FP → FP → FP
  | .nan, _ => .nan
  | _, .nan => .nan
  | .pinf, .pinf => .nan
  | .pinf, .ninf => .nan
  | .ninf, .pinf => .nan
  | .ninf, .ninf => .nan
  | .pinf, .fin b => if 0 ≤ b then .pinf else .ninf
  | .ninf, .fin b => if 0 ≤ b then .ninf else .pinf
  | .fin _, .pinf => .fin 0
  | .fin _, .ninf => .fin 0
  | .fin a, .fin b =>
      if b = 0 then (if a = 0 then .nan else if 0 < a then .pinf else .ninf)
      else .fin (a / b)

/-- `Eccentricity` over the IEEE-style scalar model. -/
structure Eccentricity where
  val : FP
deriving DecidableEq

/-- `Eccentricity::new` over the IEEE-style model: the guard is the `f64`
comparison `value < 0.0`, which is false for NaN. -/
def Eccentricity.new (value : FP) : Except String Eccentricity :=
  if value.lt (.fin 0) then .error "Eccentricity cannot be negative"
  else .ok ⟨value⟩

/-- `Eccentricity::value`. -/
def Eccentricity.value (e : Eccentricity) : FP := e.val

/-- `Point` over the IEEE-style scalar model. -/
structure Point where
  x : FP
  y : FP

/-- `Ellipse` over the IEEE-style scalar model. -/
structure Ellipse where
  e : Eccentricity
  f : Point
  r_p : FP

/-- `Ellipse::semi_major_axis` over the IEEE-style model:
`periapsis / (1.0 - eccentricity)` with IEEE subtraction and division. -/
def Ellipse.semi_major_axis (el : Ellipse) : FP :=
  el.r_p.div ((FP.fin 1).sub el.e.value)

/-- `Ellipse::apoapsis` over the IEEE-style model:
`semi_major_axis * (1.0 + eccentricity)` with IEEE addition and
multiplication. -/
def Ellipse.apoapsis (el : Ellipse) : FP :=
  el.semi_major_axis.mul ((FP.fin 1).add el.e.value)

end AlmagestFP

open Almagest in
/-- Claim C2: `Eccentricity::new(v)` returns the error
"Eccentricity cannot be negative" exactly when `v < 0`; for every
non-negative `v` (including `v = 0` and `v ≥ 1`) it succeeds and the
stored value equals `v`. -/
theorem eccentricity_new_spec (v : Almagest.Real) :
    (v < 0 → Eccentricity.new v = .error "Eccentricity cannot be negative") ∧
    (0 ≤ v → Eccentricity.new v = .ok ⟨v⟩) := by
  refine ⟨fun h => ?_, fun h => ?_⟩
  · simp [Eccentricity.new, h]
  · simp [Eccentricity.new, not_lt.mpr h]

/-- Witness for C2 at `v = -1` and `v = 3/2`. -/
theorem eccentricity_new_spec_witness :
    Almagest.Eccentricity.new (-1) = .error "Eccentricity cannot be negative" ∧
    Almagest.Eccentricity.new (3/2) = .ok ⟨3/2⟩ :=
  ⟨(eccentricity_new_spec (-1)).1 (by norm_num),
   (eccentricity_new_spec (3/2)).2 (by norm_num)⟩

open AlmagestFP in
/-- Claim C9: over the IEEE scalar model, `Eccentricity::new` applied to
NaN succeeds and stores NaN, because the only guard is the comparison
`value < 0.0`, which is false for NaN; the constructed value satisfies
`¬(value < 0)` but not `value ≥ 0`. -/
theorem eccentricity_new_nan :
    AlmagestFP.Eccentricity.new .nan = .ok ⟨.nan⟩ ∧
    FP.lt .nan (.fin 0) = false ∧
    FP.le (.fin 0) .nan = false :=
  ⟨rfl, rfl, rfl⟩

open AlmagestFP in
/-- Claim C7: over the IEEE scalar model, an ellipse with eccentricity
exactly 1 and positive periapsis has `semi_major_axis` and `apoapsis`
equal to positive infinity: the division `r_p / (1 - 1)` is a positive
finite value over zero. -/
theorem parabolic_case_infinite (q : ℚ) (f : AlmagestFP.Point) (hq : 0 < q) :
    (AlmagestFP.Ellipse.mk ⟨.fin 1⟩ f (.fin q)).semi_major_axis = .pinf ∧
    (AlmagestFP.Ellipse.mk ⟨.fin 1⟩ f (.fin q)).apoapsis = .pinf := by
  have hsma : (AlmagestFP.Ellipse.mk ⟨.fin 1⟩ f (.fin q)).semi_major_axis = .pinf := by
    show FP.div (.fin q) (FP.sub (.fin 1) (.fin 1)) = .pinf
    have hsub : FP.sub (.fin 1) (.fin 1) = .fin 0 := by
      show FP.fin (1 + -1) = .fin 0
      norm_num
    rw [hsub]
    show (if (0:ℚ) = 0 then (if q = 0 then FP.nan else if 0 < q then .pinf else .ninf)
          else .fin (q / 0)) = .pinf
    simp [hq.ne', hq]
  refine ⟨hsma, ?_⟩
  show FP.mul (AlmagestFP.Ellipse.mk ⟨.fin 1⟩ f (.fin q)).semi_major_axis
      (FP.add (.fin 1) (.fin 1)) = .pinf
  rw [hsma]
  show (if (1 + 1 : ℚ) = 0 then FP.nan else if 0 < (1 + 1 : ℚ) then .pinf else .ninf) = .pinf
  norm_num

/-- Witness for C7 at `q = 1000`. -/
theorem parabolic_case_infinite_witness :
    (AlmagestFP.Ellipse.mk ⟨.fin 1⟩ ⟨.fin 0, .fin 0⟩ (.fin 1000)).semi_major_axis = .pinf ∧
    (AlmagestFP.Ellipse.mk ⟨.fin 1⟩ ⟨.fin 0, .fin 0⟩ (.fin 1000)).apoapsis = .pinf :=
  parabolic_case_infinite 1000 ⟨.fin 0, .fin 0⟩ (by norm_num)

open Almagest in
/-- Claim C4: for every `Ellipse`, `semi_major_axis` returns the stored
periapsis divided by `1 -` the stored eccentricity value. -/
theorem semi_major_axis_formula (el : Almagest.Ellipse) :
    el.semi_major_axis = ⟨el.r_p.val / (1 - el.e.val)⟩ :=
  rfl

open Almagest in
/-- Claim C1 counterexample: at `r_p = 2`, `r_a = 1` (apoapsis below
periapsis), `from_periapsis_apoapsis` does NOT fail with a recoverable
error result — its return type has no error channel and the internal
`.unwrap()` aborts the program (modelled by `none`) — while the direct
construction `Eccentricity::new((1 - 2)/(1 + 2))` does return the
recoverable error. -/
theorem from_periapsis_apoapsis_swapped_aborts :
    Ellipse.from_periapsis_apoapsis ⟨2⟩ ⟨1⟩ ⟨⟨0⟩, ⟨0⟩⟩ = none ∧
    Eccentricity.new ((1 - 2) / (1 + 2)) = .error "Eccentricity cannot be negative" := by
  have h : ((1:ℝ) - 2) / (1 + 2) < 0 := by norm_num
  constructor
  · simp [Ellipse.from_periapsis_apoapsis, Meters.value, Eccentricity.new, h,
      unwrapOrAbort]
  · simp [Eccentricity.new, h]

open Almagest in
/-- Claim C1 amended: for `r_a < r_p` with `0 < r_a + r_p`, the internal
`Eccentricity::new((r_a - r_p)/(r_a + r_p))` fails with the same
recoverable error as direct construction, but `from_periapsis_apoapsis`
unwraps that error and aborts (a panic, modelled `none`) instead of
returning a recoverable error result. -/
theorem from_periapsis_apoapsis_swapped_panics (r_p r_a : Almagest.Real)
    (f : Almagest.Point) (h : r_a < r_p) (hsum : 0 < r_a + r_p) :
    Ellipse.from_periapsis_apoapsis ⟨r_p⟩ ⟨r_a⟩ f = none ∧
    Eccentricity.new ((r_a - r_p) / (r_a + r_p)) = .error "Eccentricity cannot be negative" := by
  have he : (r_a - r_p) / (r_a + r_p) < 0 :=
    div_neg_of_neg_of_pos (by linarith) hsum
  constructor
  · simp [Ellipse.from_periapsis_apoapsis, Meters.value, Eccentricity.new, he,
      unwrapOrAbort]
  · simp [Eccentricity.new, he]

/-- Witness for the amended C1 at `r_p = 2`, `r_a = 1`. -/
theorem from_periapsis_apoapsis_swapped_panics_witness :
    Almagest.Ellipse.from_periapsis_apoapsis ⟨2⟩ ⟨1⟩ ⟨⟨1⟩, ⟨1⟩⟩ = none ∧
    Almagest.Eccentricity.new ((1 - 2) / (1 + 2)) = .error "Eccentricity cannot be negative" :=
  from_periapsis_apoapsis_swapped_panics 2 1 ⟨⟨1⟩, ⟨1⟩⟩ (by norm_num) (by norm_num)

open Almagest in
/-- Claim C3: for non-negative focal radii `r`, `r'` with `r + r' > 0`,
`calc_ecc(r, r')` succeeds (the internal validated construction does not
fail) and the resulting eccentricity value is
`(|r - r'| / 2) / ((r + r') / 2)`, the absolute difference coming from
the magnitude-comparison branch of `calc_2c`. -/
theorem calc_ecc_spec (r r' : Almagest.Real) (hr : 0 ≤ r) (hr' : 0 ≤ r')
    (hsum : 0 < r + r') :
    calc_ecc ⟨r⟩ ⟨r'⟩ = some ⟨(|r - r'| / 2) / ((r + r') / 2)⟩ := by
  have h2c : (calc_2c ⟨r⟩ ⟨r'⟩).value = |r - r'| := by
    show (if r > r' then Meters.mk r - Meters.mk r' else Meters.mk r' - Meters.mk r).value
        = |r - r'|
    rcases lt_or_le r' r with hlt | hle
    · rw [if_pos hlt]
      show r - r' = |r - r'|
      rw [abs_of_nonneg (by linarith)]
    · rw [if_neg (not_lt.mpr hle)]
      show r' - r = |r - r'|
      rw [abs_sub_comm, abs_of_nonneg (by linarith)]
  have h2a : (calc_2a ⟨r⟩ ⟨r'⟩).value = r + r' := rfl
  have hnn : 0 ≤ (|r - r'| / 2) / ((r + r') / 2) :=
    div_nonneg (by positivity) (by linarith)
  have hexp : calc_ecc ⟨r⟩ ⟨r'⟩ =
      unwrapOrAbort (Eccentricity.new
        (((calc_2c ⟨r⟩ ⟨r'⟩).value / 2) / ((calc_2a ⟨r⟩ ⟨r'⟩).value / 2))) := rfl
  rw [hexp, h2c, h2a, Eccentricity.new, if_neg (not_lt.mpr hnn)]
  rfl

/-- Witness for C3 at `r = 3`, `r' = 1`. -/
theorem calc_ecc_spec_witness :
    Almagest.calc_ecc ⟨3⟩ ⟨1⟩ = some ⟨(|3 - 1| / 2) / ((3 + 1) / 2)⟩ :=
  calc_ecc_spec 3 1 (by norm_num) (by norm_num) (by norm_num)

open Almagest in
/-- Claim C5: for eccentricity `e ∈ [0, 1)` and periapsis `p > 0`, the
ellipse with those fields satisfies
`focal_distance² + semi_minor_axis² = semi_major_axis²`. -/
theorem focal_minor_major_pythagorean (e p : Almagest.Real) (f : Almagest.Point)
    (h0 : 0 ≤ e) (h1 : e < 1) (hp : 0 < p) :
    (Ellipse.mk ⟨e⟩ f ⟨p⟩).focal_distance.val ^ 2 +
      (Ellipse.mk ⟨e⟩ f ⟨p⟩).semi_minor_axis.val ^ 2 =
      (Ellipse.mk ⟨e⟩ f ⟨p⟩).semi_major_axis.val ^ 2 := by
  have hsq : Real.sqrt (1 - e * e) ^ 2 = 1 - e * e :=
    Real.sq_sqrt (by nlinarith)
  show (e * (p / (1 - e))) ^ 2 +
      (p / (1 - e) * Real.sqrt (1 - e * e)) ^ 2 = (p / (1 - e)) ^ 2
  rw [mul_pow, mul_pow, hsq]
  ring

/-- Witness for C5 at `e = 1/2`, `p = 1`. -/
theorem focal_minor_major_pythagorean_witness :
    (Almagest.Ellipse.mk ⟨1/2⟩ ⟨⟨0⟩, ⟨0⟩⟩ ⟨1⟩).focal_distance.val ^ 2 +
      (Almagest.Ellipse.mk ⟨1/2⟩ ⟨⟨0⟩, ⟨0⟩⟩ ⟨1⟩).semi_minor_axis.val ^ 2 =
      (Almagest.Ellipse.mk ⟨1/2⟩ ⟨⟨0⟩, ⟨0⟩⟩ ⟨1⟩).semi_major_axis.val ^ 2 :=
  focal_minor_major_pythagorean (1/2) 1 ⟨⟨0⟩, ⟨0⟩⟩ (by norm_num) (by norm_num)
    (by norm_num)

open Almagest in
/-- Claim C6: round trip — for `0 < p < a`, `from_periapsis_apoapsis(p, a, f)`
succeeds and the resulting ellipse's `periapsis()` and `apoapsis()` return
`p` and `a` exactly. -/
theorem from_periapsis_apoapsis_round_trip (p a : Almagest.Real)
    (f : Almagest.Point) (hp : 0 < p) (hpa : p < a) :
    ∃ el, Ellipse.from_periapsis_apoapsis ⟨p⟩ ⟨a⟩ f = some el ∧
      el.periapsis = ⟨p⟩ ∧ el.apoapsis = ⟨a⟩ := by
  have hsum : (0:ℝ) < a + p := by linarith
  have he : 0 ≤ (a - p) / (a + p) := div_nonneg (by linarith) hsum.le
  refine ⟨⟨⟨(a - p) / (a + p)⟩, f, ⟨p⟩⟩, ?_, rfl, ?_⟩
  · simp [Ellipse.from_periapsis_apoapsis, Meters.value, Eccentricity.new,
      not_lt.mpr he, unwrapOrAbort]
  · show Meters.mk (p / (1 - (a - p) / (a + p)) * (1 + (a - p) / (a + p))) = ⟨a⟩
    have hden : (1:ℝ) - (a - p) / (a + p) = 2 * p / (a + p) := by
      field_simp
      ring
    congr 1
    rw [hden]
    field_simp
    ring

/-- Witness for C6 at `p = 1`, `a = 3`. -/
theorem from_periapsis_apoapsis_round_trip_witness :
    ∃ el, Almagest.Ellipse.from_periapsis_apoapsis ⟨1⟩ ⟨3⟩ ⟨⟨0⟩, ⟨0⟩⟩ = some el ∧
      el.periapsis = ⟨1⟩ ∧ el.apoapsis = ⟨3⟩ :=
  from_periapsis_apoapsis_round_trip 1 3 ⟨⟨0⟩, ⟨0⟩⟩ (by norm_num) (by norm_num)

open Almagest in
/-- Claim C8: circle case — an ellipse with eccentricity 0 and periapsis
`p > 0` has `periapsis`, `apoapsis`, `semi_major_axis` and
`semi_minor_axis` all equal to `p`, and `focal_distance` equal to 0. -/
theorem circle_case (p : Almagest.Real) (f : Almagest.Point) (hp : 0 < p) :
    (Ellipse.mk ⟨0⟩ f ⟨p⟩).periapsis = ⟨p⟩ ∧
    (Ellipse.mk ⟨0⟩ f ⟨p⟩).apoapsis = ⟨p⟩ ∧
    (Ellipse.mk ⟨0⟩ f ⟨p⟩).semi_major_axis = ⟨p⟩ ∧
    (Ellipse.mk ⟨0⟩ f ⟨p⟩).semi_minor_axis = ⟨p⟩ ∧
    (Ellipse.mk ⟨0⟩ f ⟨p⟩).focal_distance = ⟨0⟩ := by
  refine ⟨rfl, ?_, ?_, ?_, ?_⟩
  · show Meters.mk (p / (1 - 0) * (1 + 0)) = ⟨p⟩
    norm_num
  · show Meters.mk (p / (1 - 0)) = ⟨p⟩
    norm_num
  · show Meters.mk (p / (1 - 0) * Real.sqrt (1 - 0 * 0)) = ⟨p⟩
    norm_num
  · show Meters.mk (0 * (p / (1 - 0))) = ⟨0⟩
    norm_num

/-- Witness for C8 at `p = 1000`. -/
theorem circle_case_witness :
    (Almagest.Ellipse.mk ⟨0⟩ ⟨⟨0⟩, ⟨0⟩⟩ ⟨1000⟩).periapsis = ⟨1000⟩ ∧
    (Almagest.Ellipse.mk ⟨0⟩ ⟨⟨0⟩, ⟨0⟩⟩ ⟨1000⟩).apoapsis = ⟨1000⟩ ∧
    (Almagest.Ellipse.mk ⟨0⟩ ⟨⟨0⟩, ⟨0⟩⟩ ⟨1000⟩).semi_major_axis = ⟨1000⟩ ∧
    (Almagest.Ellipse.mk ⟨0⟩ ⟨⟨0⟩, ⟨0⟩⟩ ⟨1000⟩).semi_minor_axis = ⟨1000⟩ ∧
    (Almagest.Ellipse.mk ⟨0⟩ ⟨⟨0⟩, ⟨0⟩⟩ ⟨1000⟩).focal_distance = ⟨0⟩ :=
  circle_case 1000 ⟨⟨0⟩, ⟨0⟩⟩ (by norm_num)

open Almagest in
/-- Claim C10: flattening depends only on eccentricity — for
`e ∈ [0, 1)` and any positive periapsis values `p1`, `p2` and any foci,
the two ellipses have the same `flattening`, namely `1 - √(1 - e²)`. -/
theorem flattening_only_depends_on_eccentricity (e p1 p2 : Almagest.Real)
    (f1 f2 : Almagest.Point) (h0 : 0 ≤ e) (h1 : e < 1)
    (hp1 : 0 < p1) (hp2 : 0 < p2) :
    (Ellipse.mk ⟨e⟩ f1 ⟨p1⟩).flattening = (Ellipse.mk ⟨e⟩ f2 ⟨p2⟩).flattening ∧
    (Ellipse.mk ⟨e⟩ f1 ⟨p1⟩).flattening = 1 - Real.sqrt (1 - e ^ 2) := by
  have key : ∀ (p : Almagest.Real) (f : Almagest.Point), 0 < p →
      (Ellipse.mk ⟨e⟩ f ⟨p⟩).flattening = 1 - Real.sqrt (1 - e ^ 2) := by
    intro p f hp
    have ha : p / (1 - e) ≠ 0 := by
      have : (0:ℝ) < 1 - e := by linarith
      positivity
    show (p / (1 - e) - p / (1 - e) * Real.sqrt (1 - e * e)) / (p / (1 - e))
        = 1 - Real.sqrt (1 - e ^ 2)
    rw [show (1:ℝ) - e * e = 1 - e ^ 2 by ring, div_eq_iff ha]
    ring
  exact ⟨(key p1 f1 hp1).trans (key p2 f2 hp2).symm, key p1 f1 hp1⟩

/-- Witness for C10 at `e = 1/2`, `p1 = 1`, `p2 = 7`. -/
theorem flattening_only_depends_on_eccentricity_witness :
    (Almagest.Ellipse.mk ⟨1/2⟩ ⟨⟨0⟩, ⟨0⟩⟩ ⟨1⟩).flattening =
      (Almagest.Ellipse.mk ⟨1/2⟩ ⟨⟨3⟩, ⟨4⟩⟩ ⟨7⟩).flattening ∧
    (Almagest.Ellipse.mk ⟨1/2⟩ ⟨⟨0⟩, ⟨0⟩⟩ ⟨1⟩).flattening =
      1 - Real.sqrt (1 - (1/2) ^ 2) :=
  flattening_only_depends_on_eccentricity (1/2) 1 7 ⟨⟨0⟩, ⟨0⟩⟩ ⟨⟨3⟩, ⟨4⟩⟩
    (by norm_num) (by norm_num) (by norm_num) (by norm_num)
